import Mathlib

/-!
Verification of `tornado_json/routes.py` (route synthesis for Tornado handlers).

The Python source is shallowly embedded: pure string computations become Lean
functions on `String` / `List Char`; the mutable class attributes set by the
`route` decorator (in particular the one-shot `map` iterator stored in
`_tj_pattern`) are modelled by explicit state passing (`PyEnv` in, `PyEnv` out);
`importlib.import_module` failures become `Except`.
-/

namespace TJ

/-- Translation of Python `str.lower` (ASCII, as used on class names). -/
def pyLower (s : String) : String :=
  String.mk (s.data.map Char.toLower)

/-- Translation of Python `str.endswith`. -/
def pyEndsWith (s suffix : String) : Bool :=
  List.isSuffixOf suffix.data s.data

/-- Core of Python `str.replace(old, new, 1)`: replace the first (leftmost)
occurrence of `old` by `new`. -/
def pyReplaceFirstAux (old new : List Char) : List Char → List Char
  | [] => []
  | c :: rest =>
    if List.isPrefixOf old (c :: rest) then new ++ List.drop old.length (c :: rest)
    else c :: pyReplaceFirstAux old new rest

/-- Translation of Python `str.replace(old, new, 1)` (nonempty `old`, as the
source only calls it with `old = "handler"`). -/
def pyReplaceFirst (s old new : String) : String :=
  String.mk (pyReplaceFirstAux old.data new.data s.data)

/-- Translation of Python `str.rstrip(ch)`: remove every trailing occurrence of
the character `ch`. -/
def pyRstrip (s : String) (ch : Char) : String :=
  String.mk ((s.data.reverse.dropWhile (fun c => c = ch)).reverse)

/-- Translation of Python `sep.join(xs)`. -/
def pyJoin (sep : String) : List String → String
  | [] => ""
  | [x] => x
  | x :: y :: rest => x ++ sep ++ pyJoin sep (y :: rest)

/-- Translation of Python `s.split(sep)` for a single-character separator
(the source only splits module names on `"."`). -/
def pySplitAux (sep : Char) : List Char → List Char → List (List Char)
  | [], acc => [acc.reverse]
  | c :: cs, acc =>
    if c = sep then acc.reverse :: pySplitAux sep cs []
    else pySplitAux sep cs (c :: acc)

/-- Translation of Python `s.split(sep)` (single-character separator). -/
def pySplit (s : String) (sep : Char) : List String :=
  (pySplitAux sep s.data []).map String.mk

/-- Modelled from the spec: `tornado_json.utils.ensure_endswith` is not under
`src/`; per spec section 4.3 sanitization must "ensure it ends with the
optional-trailing-slash terminator", i.e. append the suffix unless the string
already ends with it. -/
def ensure_endswith (s suffix : String) : String :=
  if pyEndsWith s suffix then s else s ++ suffix

/-- Modelled from the spec: `tornado_json.constants.HTTP_METHODS` is not under
`src/`; spec section 4.5 gives the canonical method set GET, POST, PUT, DELETE,
PATCH, HEAD, OPTIONS (handler methods are lowercase Python methods). -/
def HTTP_METHODS : List String :=
  ["get", "post", "put", "delete", "patch", "head", "options"]

/-- Identity of a handler class (Python identifies it by the class object;
a class is determined by its defining module and class name). `clsName` plays
the role of Python `cls.__name__`. -/
structure Ref where
  modName : String
  clsName : String
deriving DecidableEq, Repr

/-- One entry of the produced route table.  `routes.py` documents entries as
`(url, RequestHandler)` tuples, but `generate_auto_routes` yields bare URL
strings, so the table mixes tuples (`pair`) and strings (`bare`). -/
inductive RouteEntry where
  | pair (url : String) (handler : Ref)
  | bare (url : String)
deriving DecidableEq, Repr

/-- A handler class as `get_module_routes` observes it: the `_tj_*` attributes
set by the `route` / `baseroute` decorators, the handler-subclass check
(`utils.is_handler_subclass`, not under `src/`, modelled as a recorded flag per
spec section 4.4 "its ancestry includes the recognized handler base
abstraction"), and its own HTTP methods with their `getargspec` argument names
(`utils.is_method` / `extract_method` are modelled by listing exactly the own
callable methods).  `tj_pattern` holds the remaining raw items of the one-shot
`map` iterator stored by the decorator; consuming it applies
`_sanitize_pattern` and leaves it empty. -/
structure HClass where
  tj_end_pattern : List String
  tj_pattern : List String
  tj_no_auto_route : Bool
  tj_route_base : Bool
  isHandlerSubclass : Bool
  methods : List (String × List String)
deriving DecidableEq, Repr

/-- A module as the import system exposes it: whether
`importlib.import_module` succeeds, and the classes defined in it
(`pyclbr.readmodule` result, in source order). -/
structure PyModule where
  importable : Bool
  classes : List (String × HClass)
deriving DecidableEq, Repr

/-- The interpreter state: loaded modules by fully qualified name.  Class
attributes live inside, so consuming a pattern iterator updates it. -/
abbrev PyEnv := List (String × PyModule)

/-- The `url_name` argument of `generate_route`: `AutoURL('self')`,
`AutoURL('module')`, or a plain string from `_tj_end_pattern`. -/
inductive UrlName where
  | autoSelf
  | autoModule
  | given (s : String)
deriving DecidableEq, Repr

/-- Translation of `get_handler_name` (nested in `generate_route`):
for `AutoURL('self')` lowercase the class name and, if it ends with
`"handler"`, remove the first occurrence via `str.replace(old, '', 1)`;
for `AutoURL('module')` the result is `""`; otherwise prefix the given
name with `"/"`. -/
def get_handler_name (cls_name : String) : UrlName → String
  | .autoSelf =>
    "/" ++ (if pyEndsWith (pyLower cls_name) "handler"
            then pyReplaceFirst (pyLower cls_name) "handler" ""
            else pyLower cls_name)
  | .autoModule => ""
  | .given s => "/" ++ s

/-- Translation of `yield_args`: the `getargspec` argument names of the method
without `"self"`. -/
def yield_args (cls : HClass) (method_name : String) : List String :=
  ((List.lookup method_name cls.methods).getD []).filter (fun a => a ≠ "self")

/-- Translation of `has_method`: the class defines the method itself and it is
a callable (the `methods` field lists exactly those). -/
def has_method (cls : HClass) (method_name : String) : Bool :=
  (List.lookup method_name cls.methods).isSome

/-- Translation of `get_arg_route` (nested in `generate_route`): one named
capture group per argument, or the bare `"/?"` terminator when the method has
no arguments besides `self`. -/
def get_arg_route (args : List String) : String :=
  if args = [] then "/?"
  else "/" ++ pyJoin "/" (args.map (fun argname => "(?P<" ++ argname ++ ">[a-zA-Z0-9_]+)")) ++ "/?$"

/-- Translation of `get_module_path` (nested in `generate_route`):
`"/" + "/".join(module_name.split(".")[1:])`. -/
def get_module_path (module_name : String) : String :=
  "/" ++ pyJoin "/" ((pySplit module_name '.').drop 1)

/-- Translation of `generate_route`: module path, then handler name, then the
argument route computed from the method's argspec. -/
def generate_route (module_name cls_name method_name : String) (cls : HClass)
    (url_name : UrlName) : String :=
  get_module_path module_name ++ get_handler_name cls_name url_name
    ++ get_arg_route (yield_args cls method_name)

/-- Translation of `generate_auto_routes`: the generator yields the plain URL
strings returned by `generate_route` (not `(url, handler)` tuples) — one when
`_tj_no_auto_route is False`, one when `_tj_route_base is True`. -/
def generate_auto_routes (module_name cls_name method_name : String)
    (cls : HClass) : List RouteEntry :=
  (if cls.tj_no_auto_route = false
   then [RouteEntry.bare (generate_route module_name cls_name method_name cls .autoSelf)]
   else [])
  ++ (if cls.tj_route_base = true
      then [RouteEntry.bare (generate_route module_name cls_name method_name cls .autoModule)]
      else [])

/-- Translation of `_sanitize_pattern` (nested in `route`): strip trailing
`"$"`, ensure the `"/?"` terminator, re-append `"$"`. -/
def _sanitize_pattern (p : String) : String :=
  ensure_endswith (pyRstrip p '$') "/?" ++ "$"

/-- Translation of the first list of the `get_module_routes` comprehension:
one `(url, handler)` tuple per `_tj_end_pattern` entry, the entry passed to
`generate_route` as `url_name`. -/
def end_pattern_routes (module_name cls_name method_name : String)
    (cls : HClass) : List RouteEntry :=
  cls.tj_end_pattern.map
    (fun url_name =>
      RouteEntry.pair (generate_route module_name cls_name method_name cls (.given url_name))
        ⟨module_name, cls_name⟩)

/-- Translation of the second list of the `get_module_routes` comprehension:
one `(url, handler)` tuple per item yielded by the `_tj_pattern` iterator;
the iterator applies `_sanitize_pattern` to each remaining raw item. -/
def pattern_routes (module_name cls_name : String) (items : List String) :
    List RouteEntry :=
  (items.map _sanitize_pattern).map
    (fun url => RouteEntry.pair url ⟨module_name, cls_name⟩)

/-- One step of Python `list(set(xs))` dedup: keep an element unless already
seen.  In-process CPython set iteration is deterministic for a fixed insertion
sequence; first-occurrence order is one such fixed order. -/
def dedupAcc {α : Type} [BEq α] (seen : List α) : List α → List α
  | [] => []
  | x :: xs => if seen.contains x then dedupAcc seen xs else x :: dedupAcc (x :: seen) xs

/-- Translation of `list(set(xs))` for route lists. -/
def pySet {α : Type} [BEq α] (l : List α) : List α :=
  dedupAcc [] l

/-- Translation of the per-method part of the `get_module_routes`
comprehension: for each name in `HTTP_METHODS` that the class defines, emit
end-pattern routes, pattern routes (consuming the `_tj_pattern` iterator:
later methods and later calls see it exhausted), and auto routes, concatenated
in that order; returns the routes and the iterator remainder. -/
def perMethodRoutes (module_name cls_name : String) (cls : HClass) :
    List String → List String → List RouteEntry × List String
  | [], it => ([], it)
  | m :: ms, it =>
    if has_method cls m then
      let r := end_pattern_routes module_name cls_name m cls
        ++ pattern_routes module_name cls_name it
        ++ generate_auto_routes module_name cls_name m cls
      let rest := perMethodRoutes module_name cls_name cls ms []
      (r ++ rest.1, rest.2)
    else perMethodRoutes module_name cls_name cls ms it

/-- Translation of the per-class part of the `get_module_routes`
comprehension: keep classes passing `is_handler_subclass` whose name is not in
`custom_routes_s + exclusions`, apply `list(set(...))` per class, and record
the consumed `_tj_pattern` iterator back into the class. -/
def processClasses (module_name : String) (skip : List String) :
    List (String × HClass) → List RouteEntry × List (String × HClass)
  | [] => ([], [])
  | (cls_name, cls) :: rest =>
    let tail := processClasses module_name skip rest
    if cls.isHandlerSubclass && !(skip.contains cls_name) then
      let pm := perMethodRoutes module_name cls_name cls HTTP_METHODS cls.tj_pattern
      (pySet pm.1 ++ tail.1, (cls_name, {cls with tj_pattern := pm.2}) :: tail.2)
    else (tail.1, (cls_name, cls) :: tail.2)

/-- Write a module back into the interpreter state (class-attribute mutation
is global in Python). -/
def envUpdate (env : PyEnv) (n : String) (m : PyModule) : PyEnv :=
  env.map (fun p => if p.1 == n then (n, m) else p)

/-- Translation of `get_module_routes`: default `custom_routes` / `exclusions`
to `[]` (Python treats `None` and `[]` alike via `if not ...`), import the
module (failure raises — there is no handler around `import_module`), build
`custom_routes_s` from the custom handlers' `__name__`, synthesize per-class
routes, and return `auto_routes + custom_routes` together with the updated
interpreter state. -/
def get_module_routes (env : PyEnv) (module_name : String)
    (custom_routes : Option (List (String × Ref)))
    (exclusions : Option (List String)) :
    Except String (List RouteEntry × PyEnv) :=
  let custom := custom_routes.getD []
  let excl := exclusions.getD []
  match List.lookup module_name env with
  | none => .error ("ImportError: " ++ module_name)
  | some m =>
    if m.importable then
      let custom_routes_s := custom.map (fun rc => rc.2.clsName)
      let pc := processClasses module_name (custom_routes_s ++ excl) m.classes
      .ok (pc.1 ++ custom.map (fun rc => RouteEntry.pair rc.1 rc.2),
           envUpdate env module_name {m with classes := pc.2})
    else .error ("ImportError: " ++ module_name)

/-- An entry of a package as `pkgutil.walk_packages` sees it: a plain
submodule, or a subpackage (with its importability and its children, one level
deep — all the package trees considered here are at most two levels deep). -/
inductive PkgEntry where
  | mod (name : String)
  | pkg (name : String) (importable : Bool) (children : List String)
deriving DecidableEq, Repr

/-- A package object: its fully qualified name and its directory entries. -/
structure Package where
  pkgName : String
  entries : List PkgEntry
deriving DecidableEq, Repr

/-- Names yielded for one directory entry.  `walk_packages` yields a
subpackage's own name before importing it for recursion; with
`onerror=lambda x: None` an import failure during the walk is swallowed, so a
non-importable subpackage still contributes its name but none of its
children. -/
def walkEntry (pre : String) : PkgEntry → List String
  | .mod n => [pre ++ n]
  | .pkg n ok children =>
    (pre ++ n) :: (if ok then children.map (fun c => pre ++ n ++ "." ++ c) else [])

/-- Translation of `gen_submodule_names`: all submodule names of the package,
prefixed by `package.__name__ + "."`, walk errors swallowed by `onerror`. -/
def gen_submodule_names (p : Package) : List String :=
  (p.entries.map (walkEntry (p.pkgName ++ "."))).flatten

/-- The fold underlying `get_routes`: sequentially call `get_module_routes`
on each submodule name (threading the interpreter state) and concatenate; the
first exception propagates. -/
def get_routes_aux : PyEnv → List String → Except String (List RouteEntry × PyEnv)
  | env, [] => .ok ([], env)
  | env, n :: ns =>
    match get_module_routes env n none none with
    | .error e => .error e
    | .ok (rs, env') =>
      match get_routes_aux env' ns with
      | .error e => .error e
      | .ok (rs', env'') => .ok (rs ++ rs', env'')

/-- Translation of `get_routes`:
`list(chain(*[get_module_routes(modname) for modname in gen_submodule_names(package)]))`.
No parameter for exclusions or custom routes exists; `get_module_routes` is
called with its defaults. -/
def get_routes (env : PyEnv) (p : Package) : Except String (List RouteEntry × PyEnv) :=
  get_routes_aux env (gen_submodule_names p)

/-- A Python value passed as the `pattern` / `end_pattern` argument of the
`route` decorator: a `str` (the compat `basestring` from
`tornado_json.constants`, not under `src/`, checks exactly "is a string"),
a `list` or `tuple` of strings, `None`, or a value of any other type
(carrying its type name for the error message). -/
inductive AttrVal where
  | pyStr (v : String)
  | pyList (l : List String)
  | pyTuple (l : List String)
  | pyNone
  | pyOther (typeName : String)
deriving DecidableEq, Repr

/-- Whether the value has one of the shapes `_transform_attr` rejects. -/
def AttrVal.isUnsupported : AttrVal → Bool
  | .pyOther _ => true
  | _ => false

/-- The `TypeError` message raised by `_transform_attr`. -/
def typeErrMsg (typeName : String) : String :=
  "Unsupported type " ++ typeName ++ "; expected str or list"

/-- Translation of `_transform_attr` (nested in `route`): a string becomes a
one-element list, a list or tuple becomes the equivalent list, `None` becomes
the empty list, anything else raises `TypeError`. -/
def _transform_attr : AttrVal → Except String (List String)
  | .pyStr v => .ok [v]
  | .pyList l => .ok l
  | .pyTuple l => .ok l
  | .pyNone => .ok []
  | .pyOther t => .error (typeErrMsg t)

/-- Translation of `_route` (the decorator returned by `route(...)`), applied
to a handler class.  Statement order of the source is kept: first
`_tj_end_pattern` is assigned, then `map(_sanitize_pattern, _transform_attr(pattern))`
is built (its `_transform_attr` argument is evaluated eagerly and may raise
after the first assignment; sanitization itself stays lazy in the stored
iterator), then `_tj_no_auto_route`.  The result is the class state after the
call plus the raised error, if any. -/
def _route (pattern end_pattern : AttrVal) (no_auto_route : Bool)
    (handler : HClass) : HClass × Option String :=
  match _transform_attr end_pattern with
  | .error e => (handler, some e)
  | .ok ep =>
    let h1 := {handler with tj_end_pattern := ep}
    match _transform_attr pattern with
    | .error e => (h1, some e)
    | .ok ps =>
      ({h1 with tj_pattern := ps, tj_no_auto_route := no_auto_route}, none)

/-- Translation of `baseroute`: set `_tj_route_base` and `_tj_no_auto_route`
unconditionally. -/
def baseroute (handler : HClass) : HClass :=
  {handler with tj_route_base := true, tj_no_auto_route := true}

/-- The character class `[a-zA-Z0-9_]` of the capture groups emitted by
`get_arg_route`. -/
def wordChar (c : Char) : Bool :=
  c.isLower || c.isUpper || c.isDigit || c == '_'

/-- Independent analyzer of emitted URL patterns: scan a string for Python
named capture groups `(?P<name>body)` and return the `(name, body)` pairs in
textual order.  This is not part of the source; it is the yardstick against
which the structure of `get_arg_route`'s output is measured. -/
def scanGroups : List Char → List (List Char × List Char)
  | [] => []
  | c :: rest =>
    if c = '(' ∧ rest.take 3 = ['?', 'P', '<'] then
      let afterLT := rest.drop 3
      let gname := afterLT.takeWhile (fun ch => ch != '>')
      let afterGt := (afterLT.dropWhile (fun ch => ch != '>')).drop 1
      (gname, afterGt.takeWhile (fun ch => ch != ')'))
        :: scanGroups (afterGt.dropWhile (fun ch => ch != ')'))
    else scanGroups rest
termination_by l => l.length
decreasing_by
  · have h1 := (List.dropWhile_sublist (l := ((rest.drop 3).dropWhile (fun ch => ch != '>')).drop 1)
      (fun ch => ch != ')')).length_le
    have h2 := (List.dropWhile_sublist (l := rest.drop 3) (fun ch => ch != '>')).length_le
    simp only [List.length_drop, List.length_cons] at *
    omega
  · simp only [List.length_cons]
    omega

/-- Whether `importlib.import_module` would succeed on the module name in the
given interpreter state. -/
def importOk (env : PyEnv) (n : String) : Bool :=
  match List.lookup n env with
  | some m => m.importable
  | none => false

/-- The URL string of a route-table entry (tuples and bare strings alike). -/
def urlOf : RouteEntry → String
  | .pair u _ => u
  | .bare u => u

/-- Stated from the claim's words (C9): the concatenation, in
submodule-traversal order, of each submodule's routes computed with explicitly
empty exclusion and custom-route lists. -/
def routesExplicitEmpty : PyEnv → List String → Except String (List RouteEntry × PyEnv)
  | env, [] => .ok ([], env)
  | env, n :: ns =>
    match get_module_routes env n (some []) (some []) with
    | .error e => .error e
    | .ok (rs, env') =>
      match routesExplicitEmpty env' ns with
      | .error e => .error e
      | .ok (rs', env'') => .ok (rs ++ rs', env'')

/-- Handler `api.helloworld.HelloWorldHandler` of C1: defines only
`get(self)`, carries the default metadata (`no-auto-route` false, `route-base`
false, empty end-patterns and custom patterns). -/
def c1_cls : HClass := ⟨[], [], false, false, true, [("get", ["self"])]⟩

/-- Interpreter state of C1: the single module `api.helloworld` defining
`HelloWorldHandler`. -/
def c1_env : PyEnv := [("api.helloworld", ⟨true, [("HelloWorldHandler", c1_cls)]⟩)]

/-- Package `api` of C1, with the single plain submodule `helloworld`. -/
def c1_pkg : Package := ⟨"api", [.mod "helloworld"]⟩

/-- Handler of C3: decorated with `route(pattern="/foo")` (so
`_tj_pattern` is the one-shot iterator over `["/foo"]`, `_tj_end_pattern` is
empty and `_tj_no_auto_route` is the default `True`), defining `get(self)`. -/
def c3_cls : HClass :=
  (_route (AttrVal.pyStr "/foo") AttrVal.pyNone true
    ⟨[], [], false, false, true, [("get", ["self"])]⟩).1

/-- Interpreter state of C3 before the first call. -/
def c3_env : PyEnv := [("api.m", ⟨true, [("FooHandler", c3_cls)]⟩)]

/-- Interpreter state of C3 after one call: the `_tj_pattern` iterator is
exhausted. -/
def c3_env2 : PyEnv :=
  [("api.m", ⟨true, [("FooHandler", ⟨[], [], true, false, true, [("get", ["self"])]⟩)]⟩)]

/-- Package of C3. -/
def c3_pkg : Package := ⟨"api", [.mod "m"]⟩

/-- Interpreter state of C4: submodule `api.a` imports fine and defines a
handler; importing submodule `api.b` raises. -/
def c4_env : PyEnv :=
  [("api.a", ⟨true, [("FooHandler", ⟨[], [], false, false, true, [("get", ["self"])]⟩)]⟩),
   ("api.b", ⟨false, []⟩)]

/-- Package of C4, with the two plain submodules `a` and `b`. -/
def c4_pkg : Package := ⟨"api", [.mod "a", .mod "b"]⟩

/-- Handler of C5: decorated with `route(end_pattern="foo")` (default
`no_auto_route=True`), defining `get(self)`. -/
def c5_cls : HClass :=
  (_route AttrVal.pyNone (AttrVal.pyStr "foo") true
    ⟨[], [], false, false, true, [("get", ["self"])]⟩).1

/-- Interpreter state of C5: module `api.x` defining the decorated handler. -/
def c5_env : PyEnv := [("api.x", ⟨true, [("FooHandler", c5_cls)]⟩)]

/-- Handler of C8: implements both `get(self)` and `post(self)`,
`no-auto-route` false, no other metadata. -/
def c8_cls : HClass := ⟨[], [], false, false, true, [("get", ["self"]), ("post", ["self"])]⟩

/-- C2 (code_bug). Evaluation of the self-naming rule at the failing input
`HandlerXHandler`: the code removes the FIRST occurrence of `"handler"` in the
lowercased class name (Python `str.replace(old, new, 1)`), producing
`/xhandler`, whereas the claim — and the function's own docstring, "'handler'
removed from the ending" — demands removal of the trailing occurrence,
`/handlerx`. -/
theorem c2_strips_first_occurrence :
    get_handler_name "HandlerXHandler" .autoSelf = "/xhandler"
    ∧ ("/xhandler" : String) ≠ "/handlerx" :=
  ⟨rfl, by decide⟩

/-- C1 counterexample. On handler `api.helloworld.HelloWorldHandler` with a
receiver-only GET and default metadata, the synthesizer emits exactly one
entry whose URL is `/helloworld/helloworld/?`, which is not the claimed
`/helloworld/?$`. -/
theorem c1_counterexample :
    Except.map (fun pr => pr.1.map urlOf) (get_routes c1_env c1_pkg)
      = .ok ["/helloworld/helloworld/?"]
    ∧ ("/helloworld/helloworld/?" : String) ≠ "/helloworld/?$" :=
  ⟨rfl, by decide⟩

/-- C1 amended. The same input yields exactly one table entry: the bare URL
string `/helloworld/helloworld/?` (module segment `/helloworld` from the
components after the package root, self-name segment `/helloworld`, empty-args
terminator `/?` with no anchor), not paired with the handler type because
`generate_auto_routes` yields plain strings. -/
theorem c1_single_route :
    get_routes c1_env c1_pkg = .ok ([RouteEntry.bare "/helloworld/helloworld/?"], c1_env) :=
  rfl

/-- C3 (code_bug). The decorator stores `_tj_pattern` as a one-shot `map`
iterator; the first synthesis run consumes it, so a second run on the
unchanged package yields a different (empty) route table. -/
theorem c3_second_run_differs :
    get_routes c3_env c3_pkg
      = .ok ([RouteEntry.pair "/foo/?$" ⟨"api.m", "FooHandler"⟩], c3_env2)
    ∧ get_routes c3_env2 c3_pkg = .ok ([], c3_env2)
    ∧ ([RouteEntry.pair "/foo/?$" ⟨"api.m", "FooHandler"⟩] : List RouteEntry) ≠ [] :=
  ⟨rfl, rfl, by decide⟩

/-- C5 counterexample. A handler with end-pattern `"foo"` yields the route
URL `/x/foo/?` — the entry is used verbatim; had the entry been sanitized the
way custom patterns are (`_sanitize_pattern`), the composed path would be
`/x/foo/?$/?`, which differs. -/
theorem c5_counterexample :
    get_module_routes c5_env "api.x" none none
      = .ok ([RouteEntry.pair "/x/foo/?" ⟨"api.x", "FooHandler"⟩], c5_env)
    ∧ ("/x/foo/?" : String)
        ≠ get_module_path "api.x" ++ "/" ++ _sanitize_pattern "foo" ++ get_arg_route [] :=
  ⟨rfl, by decide⟩

/-- C5 amended. Each end-pattern entry is used verbatim (it is never passed
through `_sanitize_pattern`): the emitted route for an entry is the pair of
module-segment ++ "/" ++ entry ++ argument-capture-segment with the handler. -/
theorem c5_end_patterns_verbatim (module_name cls_name method_name : String) (cls : HClass) :
    end_pattern_routes module_name cls_name method_name cls
      = cls.tj_end_pattern.map (fun entry =>
          RouteEntry.pair
            (get_module_path module_name ++ "/" ++ entry
              ++ get_arg_route (yield_args cls method_name))
            ⟨module_name, cls_name⟩) := by
  simp [end_pattern_routes, generate_route, get_handler_name, String.append_assoc]

/-- C6. The annotation-value transformer raises exactly on unsupported
shapes, and otherwise normalizes: a string to a one-element list, `None` to
the empty list, a list or tuple to the equivalent list. -/
theorem c6_transform_attr (a : AttrVal) :
    ((∃ e, _transform_attr a = .error e) ↔ a.isUnsupported = true)
    ∧ (∀ v, a = .pyStr v → _transform_attr a = .ok [v])
    ∧ (a = .pyNone → _transform_attr a = .ok [])
    ∧ (∀ l, a = .pyList l → _transform_attr a = .ok l)
    ∧ (∀ l, a = .pyTuple l → _transform_attr a = .ok l) := by
  cases a <;> simp [_transform_attr, AttrVal.isUnsupported]

/-- C6 witness: the theorem applied at the concrete input `"x"`. -/
theorem c6_witness : _transform_attr (AttrVal.pyStr "x") = .ok ["x"] :=
  (c6_transform_attr (AttrVal.pyStr "x")).2.1 "x" rfl

/-- C10. Applying the decorator with an unsupported-shape `pattern` and a
valid `end_pattern` is not atomic: `_tj_end_pattern` is assigned first, then
the eager `_transform_attr(pattern)` raises, leaving `_tj_pattern` and
`_tj_no_auto_route` (and everything else) untouched. -/
theorem c10_route_not_atomic (handler : HClass) (no_auto : Bool) (d : String)
    (E : AttrVal) (ep : List String) (hE : _transform_attr E = .ok ep) :
    _route (AttrVal.pyOther d) E no_auto handler
      = ({handler with tj_end_pattern := ep}, some (typeErrMsg d)) := by
  simp only [_route]
  rw [hE]
  rfl

/-- C8. For any module name and class name, a handler implementing both
`get(self)` and `post(self)` with `no-auto-route` false and no other metadata
synthesizes exactly one self-named auto-route: the identical patterns produced
for GET and for POST collapse to one under `list(set(...))`. -/
theorem c8_get_post_dedup (mn cn : String) :
    get_module_routes [(mn, ⟨true, [(cn, c8_cls)]⟩)] mn none none
      = .ok ([RouteEntry.bare (get_module_path mn ++ get_handler_name cn .autoSelf ++ "/?")],
             [(mn, ⟨true, [(cn, c8_cls)]⟩)]) := by
  simp [get_module_routes, List.lookup, processClasses, perMethodRoutes, has_method,
        end_pattern_routes, pattern_routes, generate_auto_routes, generate_route,
        yield_args, get_arg_route, pySet, dedupAcc, envUpdate, HTTP_METHODS, c8_cls,
        List.contains]

/-- C9. `get_routes` takes no exclusions or custom routes: it equals the
concatenation, in submodule-traversal order, of each submodule's routes
computed by `get_module_routes` with explicitly empty custom-route and
exclusion lists (the `None` defaults and explicit empty lists coincide). -/
theorem c9_no_exclusions_from_get_routes (env : PyEnv) (p : Package) :
    get_routes env p = routesExplicitEmpty env (gen_submodule_names p) := by
  show get_routes_aux env (gen_submodule_names p) = _
  generalize gen_submodule_names p = ns
  induction ns generalizing env with
  | nil => rfl
  | cons n ns ih =>
    have hkey : get_module_routes env n (some []) (some [])
        = get_module_routes env n none none := rfl
    simp only [get_routes_aux, routesExplicitEmpty, hkey]
    cases hg : get_module_routes env n none none with
    | error e => rfl
    | ok pr =>
      obtain ⟨rs, env'⟩ := pr
      dsimp only
      rw [ih env']

/-- Unfolding `envUpdate` on a matching head entry. -/
theorem envUpdate_cons_eq (a : String) (b : PyModule) (t : PyEnv) (n : String)
    (m' : PyModule) (h : a = n) :
    envUpdate ((a, b) :: t) n m' = (n, m') :: envUpdate t n m' := by
  simp [envUpdate, h]

/-- Unfolding `envUpdate` on a non-matching head entry. -/
theorem envUpdate_cons_ne (a : String) (b : PyModule) (t : PyEnv) (n : String)
    (m' : PyModule) (h : a ≠ n) :
    envUpdate ((a, b) :: t) n m' = (a, b) :: envUpdate t n m' := by
  have hb : ¬((a == n) = true) := by simp [h]
  simp [envUpdate, hb]
  exact fun hc => absurd hc h

/-- Unfolding `List.lookup` on a matching head entry. -/
theorem lookup_cons_eq {β : Type} (k a : String) (b : β) (t : List (String × β))
    (h : k = a) : List.lookup k ((a, b) :: t) = some b := by
  simp [List.lookup, h]

/-- Unfolding `List.lookup` on a non-matching head entry. -/
theorem lookup_cons_ne {β : Type} (k a : String) (b : β) (t : List (String × β))
    (h : k ≠ a) : List.lookup k ((a, b) :: t) = List.lookup k t := by
  simp [List.lookup, beq_eq_false_iff_ne.mpr h]

/-- Looking up a different key is unaffected by `envUpdate`. -/
theorem lookup_envUpdate_ne (n : String) (m' : PyModule) (k : String) (hk : k ≠ n) :
    ∀ env : PyEnv, List.lookup k (envUpdate env n m') = List.lookup k env := by
  intro env
  induction env with
  | nil => rfl
  | cons hd t ih =>
    obtain ⟨a, b⟩ := hd
    by_cases han : a = n
    · rw [envUpdate_cons_eq a b t n m' han, lookup_cons_ne k n m' _ hk,
        lookup_cons_ne k a b t (han ▸ hk), ih]
    · by_cases hka : k = a
      · rw [envUpdate_cons_ne a b t n m' han, lookup_cons_eq k a b _ hka,
          lookup_cons_eq k a b t hka]
      · rw [envUpdate_cons_ne a b t n m' han, lookup_cons_ne k a b _ hka,
          lookup_cons_ne k a b t hka, ih]

/-- Looking up the updated key after `envUpdate` returns the new module,
provided the key was bound. -/
theorem lookup_envUpdate_self (n : String) (m' : PyModule) :
    ∀ (env : PyEnv) (m : PyModule), List.lookup n env = some m →
      List.lookup n (envUpdate env n m') = some m' := by
  intro env
  induction env with
  | nil => intro m h; simp [List.lookup] at h
  | cons hd t ih =>
    intro m h
    obtain ⟨a, b⟩ := hd
    by_cases han : a = n
    · rw [envUpdate_cons_eq a b t n m' han, lookup_cons_eq n n m' _ rfl]
    · have hna : n ≠ a := fun hna => han hna.symm
      rw [lookup_cons_ne n a b t hna] at h
      rw [envUpdate_cons_ne a b t n m' han, lookup_cons_ne n a b _ hna, ih m h]

/-- A successful `get_module_routes` call implies the module imported, and
the call preserves which modules are importable (it only rewrites class
attributes of the imported module). -/
theorem get_module_routes_importOk {env : PyEnv} {n : String}
    {c : Option (List (String × Ref))} {e : Option (List String)}
    {rs : List RouteEntry} {env' : PyEnv}
    (h : get_module_routes env n c e = .ok (rs, env')) :
    importOk env n = true ∧ ∀ k, importOk env' k = importOk env k := by
  unfold get_module_routes at h
  cases hl : List.lookup n env with
  | none => simp [hl] at h
  | some m =>
    cases him : m.importable with
    | false => simp [hl, him] at h
    | true =>
      simp [hl, him] at h
      constructor
      · simp [importOk, hl, him]
      · intro k
        rw [← h.2]
        by_cases hk : k = n
        · subst hk
          rw [importOk, importOk,
            lookup_envUpdate_self k _ env m hl, hl]
          simp [him]
        · rw [importOk, importOk, lookup_envUpdate_ne n _ k hk env]

/-- If some name in the list fails to import, the sequential fold behind
`get_routes` raises rather than returning routes. -/
theorem get_routes_aux_abort :
    ∀ (ns : List String) (env : PyEnv), (∃ n ∈ ns, importOk env n = false) →
      (get_routes_aux env ns).isOk = false := by
  intro ns
  induction ns with
  | nil => rintro env ⟨n, hn, -⟩; simp at hn
  | cons n ns ih =>
    rintro env ⟨k, hk, hfail⟩
    cases hg : get_module_routes env n none none with
    | error e =>
      show (get_routes_aux env (n :: ns)).isOk = false
      rw [get_routes_aux, hg]
      rfl
    | ok pr =>
      obtain ⟨rs, env'⟩ := pr
      obtain ⟨h1, h2⟩ := get_module_routes_importOk hg
      rcases List.mem_cons.mp hk with rfl | hmem
      · rw [h1] at hfail; exact absurd hfail (by simp)
      · have hfail' : importOk env' k = false := (h2 k).trans hfail
        have ihe := ih env' ⟨k, hmem, hfail'⟩
        cases hrec : get_routes_aux env' ns with
        | error e =>
          show (get_routes_aux env (n :: ns)).isOk = false
          rw [get_routes_aux, hg]
          dsimp only
          rw [hrec]
          rfl
        | ok pr' =>
          rw [hrec] at ihe
          exact absurd ihe (by simp [Except.isOk, Except.toBool])

/-- C4 amended. Only errors raised while walking the package are swallowed
(`onerror`, reflected in `gen_submodule_names`); a failure of
`importlib.import_module` on a yielded submodule inside `get_module_routes`
propagates: if any yielded submodule fails to import, `get_routes` raises and
returns no routes instead of skipping that submodule. -/
theorem c4_import_failure_aborts (env : PyEnv) (p : Package) (n : String)
    (hmem : n ∈ gen_submodule_names p) (hfail : importOk env n = false) :
    (get_routes env p).isOk = false :=
  get_routes_aux_abort (gen_submodule_names p) env ⟨n, hmem, hfail⟩

/-- C4 witness: the amended theorem applied to the concrete package whose
submodule `api.b` fails to import. -/
theorem c4_abort_witness : (get_routes c4_env c4_pkg).isOk = false :=
  c4_import_failure_aborts c4_env c4_pkg "api.b" (by decide) rfl

/-- C4 counterexample. With submodule `api.a` importable (and contributing a
route) and `api.b` failing to import, `get_routes` raises `ImportError` —
contradicting the claim that the other submodules' routes are still returned
and no exception reaches the caller. -/
theorem c4_counterexample :
    get_routes c4_env c4_pkg = .error "ImportError: api.b"
    ∧ get_module_routes c4_env "api.a" none none
        = .ok ([RouteEntry.bare "/a/foo/?"], c4_env) :=
  ⟨rfl, rfl⟩

/-- takeWhile stops exactly at the first failing element. -/
theorem takeWhile_append_stop {α : Type} (p : α → Bool) (y : α) (ys : List α)
    (hy : p y = false) :
    ∀ xs : List α, (∀ x ∈ xs, p x = true) → (xs ++ y :: ys).takeWhile p = xs := by
  intro xs
  induction xs with
  | nil => intro _; simp [List.takeWhile_cons, hy]
  | cons a t ih =>
    intro hx
    have ha := hx a (by simp)
    simp only [List.cons_append, List.takeWhile_cons, ha, if_true]
    rw [ih (fun x hx' => hx x (by simp [hx']))]

/-- dropWhile drops exactly up to the first failing element. -/
theorem dropWhile_append_stop {α : Type} (p : α → Bool) (y : α) (ys : List α)
    (hy : p y = false) :
    ∀ xs : List α, (∀ x ∈ xs, p x = true) → (xs ++ y :: ys).dropWhile p = y :: ys := by
  intro xs
  induction xs with
  | nil => intro _; simp [List.dropWhile_cons, hy]
  | cons a t ih =>
    intro hx
    have ha := hx a (by simp)
    simp only [List.cons_append, List.dropWhile_cons, ha, if_true]
    exact ih (fun x hx' => hx x (by simp [hx']))

/-- The scanner's base case. -/
theorem scanGroups_nil : scanGroups [] = [] := by
  simp [scanGroups]

/-- A character that is not `(` never starts a capture group: the scanner
skips it. -/
theorem scanGroups_cons_skip (c : Char) (l : List Char) (h : c ≠ '(') :
    scanGroups (c :: l) = scanGroups l := by
  simp only [scanGroups]
  rw [if_neg]
  exact fun hc => h hc.1

/-- The scanner ignores any group-free chunk. -/
theorem scanGroups_skip_all (l : List Char) (h : ∀ c ∈ l, c ≠ '(') :
    ∀ rest, scanGroups (l ++ rest) = scanGroups rest := by
  induction l with
  | nil => intro rest; rfl
  | cons a t ih =>
    intro rest
    rw [List.cons_append, scanGroups_cons_skip a _ (h a (by simp))]
    exact ih (fun c hc => h c (by simp [hc])) rest

/-- The scanner recognizes one literal group `(?P<gname>body)` and moves on. -/
theorem scanGroups_group (gname body rest : List Char)
    (hn : ∀ c ∈ gname, c ≠ '>') (hb : ∀ c ∈ body, c ≠ ')') :
    scanGroups ('(' :: '?' :: 'P' :: '<' :: (gname ++ '>' :: (body ++ ')' :: rest)))
      = (gname, body) :: scanGroups rest := by
  rw [scanGroups.eq_2, if_pos ⟨rfl, rfl⟩]
  have hn' : ∀ c ∈ gname, (c != '>') = true := fun c hc => by simp [hn c hc]
  have hb' : ∀ c ∈ body, (c != ')') = true := fun c hc => by simp [hb c hc]
  simp only [show List.drop 3 ('?' :: 'P' :: '<' :: (gname ++ '>' :: (body ++ ')' :: rest)))
      = gname ++ '>' :: (body ++ ')' :: rest) from rfl,
    takeWhile_append_stop _ '>' _ (by decide) gname hn',
    dropWhile_append_stop _ '>' _ (by decide) gname hn']
  simp only [show List.drop 1 ('>' :: (body ++ ')' :: rest)) = body ++ ')' :: rest from rfl,
    takeWhile_append_stop _ ')' _ (by decide) body hb',
    dropWhile_append_stop _ ')' _ (by decide) body hb',
    scanGroups_cons_skip ')' rest (by decide)]

/-- A word character of the emitted capture groups is never `>`. -/
theorem wordChar_ne_gt (c : Char) (h : wordChar c = true) : c ≠ '>' := by
  rintro rfl
  exact absurd h (by decide)

/-- Character data of `"/" ++ "/".join(gs)` for nonempty `gs`: a leading
slash before each component. -/
theorem slashJoin_data :
    ∀ gs : List String, gs ≠ [] →
      ("/" ++ pyJoin "/" gs).data = (gs.map (fun g => '/' :: g.data)).flatten := by
  intro gs
  induction gs with
  | nil => intro h; exact absurd rfl h
  | cons g t ih =>
    intro _
    cases t with
    | nil => simp [pyJoin, String.data_append]
    | cons g' t' =>
      have ih' := ih (by simp)
      rw [pyJoin, List.map_cons, List.flatten_cons, ← ih']
      simp [String.data_append, List.append_assoc,
        show ("/" : String).data = ['/'] from rfl]

/-- Character data of the nonempty-arguments branch of `get_arg_route`. -/
theorem get_arg_route_data (args : List String) (h : args ≠ []) :
    (get_arg_route args).data
      = (args.map (fun a => '/' :: ("(?P<" ++ a ++ ">[a-zA-Z0-9_]+)").data)).flatten
        ++ ("/?$").data := by
  rw [get_arg_route, if_neg h, String.data_append,
    slashJoin_data (args.map _) (by simpa using h), List.map_map]
  rfl

/-- Scanning the concatenation of the emitted capture groups (plus any
group-free tail) recovers exactly the argument names, in order, each with the
`[a-zA-Z0-9_]+` body. -/
theorem scanGroups_chain (tail : List Char) (ht : ∀ c ∈ tail, c ≠ '(') :
    ∀ args : List String, (∀ a ∈ args, ∀ c ∈ a.data, wordChar c = true) →
      scanGroups
          ((args.map (fun a => '/' :: ("(?P<" ++ a ++ ">[a-zA-Z0-9_]+)").data)).flatten ++ tail)
        = args.map (fun a => (a.data, ("[a-zA-Z0-9_]+").data)) := by
  intro args
  induction args with
  | nil =>
    intro _
    have hs := scanGroups_skip_all tail ht []
    simpa [scanGroups_nil] using hs
  | cons a t ih =>
    intro hw
    have ha : ∀ c ∈ a.data, wordChar c = true := hw a (by simp)
    have hgt : ∀ c ∈ a.data, c ≠ '>' := fun c hc => wordChar_ne_gt c (ha c hc)
    have hshape :
        ((a :: t).map (fun a => '/' :: ("(?P<" ++ a ++ ">[a-zA-Z0-9_]+)").data)).flatten ++ tail
          = '/' :: '(' :: '?' :: 'P' :: '<' ::
              (a.data ++ '>' :: (("[a-zA-Z0-9_]+").data
                ++ ')' :: ((t.map (fun a => '/' :: ("(?P<" ++ a ++ ">[a-zA-Z0-9_]+)").data)).flatten
                  ++ tail))) := by
      have d1 : ("(?P<" ++ a ++ ">[a-zA-Z0-9_]+)").data
          = ('(' :: '?' :: 'P' :: '<' :: a.data) ++ ('>' :: (("[a-zA-Z0-9_]+").data ++ [')'])) := by
        rw [String.data_append, String.data_append,
          show ("(?P<").data = ['(', '?', 'P', '<'] from rfl,
          show (">[a-zA-Z0-9_]+)").data = '>' :: (("[a-zA-Z0-9_]+").data ++ [')']) from rfl]
        simp
      simp [d1, List.append_assoc]
    rw [hshape, scanGroups_cons_skip '/' _ (by decide),
      scanGroups_group a.data _ _ hgt (by decide),
      ih (fun b hb => hw b (by simp [hb]))]
    simp

/-- C7. For a nonempty list of word-character parameter names, the
argument-capture segment contains exactly one named group per parameter, in
input order, each with body `[a-zA-Z0-9_]+`, and the segment ends with the
optional-slash-plus-anchor `/?$`; for the empty list the segment is the bare
terminator `/?` with no capture group and no anchor, which differs from every
nonempty result. -/
theorem c7_arg_capture (args : List String) (h1 : args ≠ [])
    (h2 : ∀ a ∈ args, ∀ c ∈ a.data, wordChar c = true) :
    scanGroups (get_arg_route args).data
        = args.map (fun a => (a.data, ("[a-zA-Z0-9_]+").data))
    ∧ List.IsSuffix ("/?$").data (get_arg_route args).data
    ∧ get_arg_route [] = "/?"
    ∧ scanGroups (get_arg_route []).data = []
    ∧ get_arg_route args ≠ "/?" := by
  have hd := get_arg_route_data args h1
  refine ⟨?_, ?_, rfl, ?_, ?_⟩
  · rw [hd]
    exact scanGroups_chain ("/?$").data (by decide) args h2
  · exact ⟨_, hd.symm⟩
  · show scanGroups (("/?" : String)).data = []
    rw [show ("/?" : String).data = ['/', '?'] from rfl,
      scanGroups_cons_skip '/' _ (by decide), scanGroups_cons_skip '?' _ (by decide)]
    exact scanGroups_nil
  · intro heq
    have hdata := congrArg String.data heq
    rw [hd] at hdata
    have hlen := congrArg List.length hdata
    rw [List.length_append,
      show (("/?$").data).length = 3 from rfl,
      show (("/?" : String).data).length = 2 from rfl] at hlen
    omega

/-- C7 witness: the theorem applied to the concrete parameter list
`["oid", "xyz"]`. -/
theorem c7_witness :
    scanGroups (get_arg_route ["oid", "xyz"]).data
        = (["oid", "xyz"].map (fun a => (a.data, ("[a-zA-Z0-9_]+").data)))
    ∧ get_arg_route [] = "/?" := by
  have h := c7_arg_capture ["oid", "xyz"] (by decide) (by decide)
  exact ⟨h.1, h.2.2.1⟩

/-- C10 witness: the theorem applied at a concrete handler, with
`pattern` an `int` and `end_pattern` the string `"foo"`. -/
theorem c10_witness :
    _route (AttrVal.pyOther "int") (AttrVal.pyStr "foo") true ⟨[], [], false, false, true, []⟩
      = (⟨["foo"], [], false, false, true, []⟩, some (typeErrMsg "int")) :=
  c10_route_not_atomic ⟨[], [], false, false, true, []⟩ true "int" (AttrVal.pyStr "foo") ["foo"] rfl

end TJ
